import Mathlib

/-!
Verification of the electric-vehicle ingestion/aggregation pipeline
(`src/lib.py`).  The Python functions `create_enum_from_column`,
`create_table_from_csv` and `collect_information` are shallowly embedded
below; SQL statements issued to the DuckDB collaborator are embedded by
their standard SQL semantics over an explicit list-of-rows table model.
-/

namespace EVPipeline

/-! ## Python string helpers (src/lib.py:47)

`col_name.replace(" ", "")` with a one-character pattern and empty
replacement removes every occurrence of that character. -/

/-- Python `s.replace(c, "")` for a single-character pattern `c`:
drops every occurrence of `c`, scanning left to right. -/
def removeChar (c : Char) : List Char → List Char
  | [] => []
  | a :: rest => if a = c then removeChar c rest else a :: removeChar c rest

/-- Enum type name used by `create_enum_from_column` (src/lib.py:46-47):
if `enum_name` is empty it is derived from `col_name` by
`.replace(" ", "").replace("(", "").replace(")", "")`, otherwise
`enum_name` is used as given. -/
def enumNameOf (col_name enum_name : String) : String :=
  if enum_name.length = 0 then
    ⟨removeChar ')' (removeChar '(' (removeChar ' ' col_name.data))⟩
  else enum_name

/-! ## Source model

A CSV source file: a stem (models `Path.stem`), a posix path, a header
row, and the data rows.  A field holds `none` when the cell is a null
marker (empty cell, read as NULL by the engine's CSV reader). -/

structure CSVFile where
  path : String
  stem : String
  header : List String
  rows : List (List (Option String))
deriving DecidableEq

/-- Index of a column name in the source header, `none` when the header
does not contain it (the engine then raises a source-read error). -/
def columnIndex (csv : CSVFile) (col : String) : Option Nat :=
  csv.header.findIdx? (fun h => h == col)

/-- The column's value in each data row of the source (positional lookup
through the header index). -/
def columnDataValues (csv : CSVFile) (col : String) : Option (List (Option String)) :=
  (columnIndex csv col).map (fun i => csv.rows.map (fun r => r.getD i none))

/-- Result set of the `SELECT DISTINCT "col" WHERE "col" IS NOT NULL`
subquery inside the `CREATE TYPE ... AS ENUM` command built at
src/lib.py:49-55: the null markers are filtered out and duplicates are
removed (`DISTINCT`), deterministically in the model. -/
def enumValues (vals : List (Option String)) : List String :=
  vals.reduceOption.dedup

/-- Structured form of the `CREATE TYPE {enum_name} as ENUM (...)` SQL
command returned by `create_enum_from_column` (src/lib.py:31-55). -/
structure EnumCommand where
  enumName : String
  sourceDir : String
  columnName : String
deriving DecidableEq

/-- Embedding of `create_enum_from_column(csv_file_dir, col_name, enum_name)`
(src/lib.py:31-55), as the structured command it renders to SQL. -/
def create_enum_from_column (csv_file_dir col_name enum_name : String) : EnumCommand :=
  ⟨enumNameOf col_name enum_name, csv_file_dir, col_name⟩

/-- The value domain (Dictionary `values`) the engine computes when it
executes an `EnumCommand` against the source. -/
def dictionaryValues (csv : CSVFile) (cmd : EnumCommand) : Option (List String) :=
  (columnDataValues csv cmd.columnName).map enumValues

/-! ## Schema and database model (src/lib.py:58-132)

The database collaborator is modelled as a store of declared enum types
and of tables.  The `CREATE TABLE` schema is transcribed from
src/lib.py:81-107.  Command execution semantics follow the engine
contract stated in the spec (atomic bulk copy); see `copyCSV`. -/

inductive ScalarType
  | varchar (n : Nat)
  | fixedchar (n : Nat)
  | integer
  | enumType (typeName : String)
  | geometry
deriving DecidableEq

structure ColumnSpec where
  name : String
  type : ScalarType
  notNull : Bool
deriving DecidableEq

/-- The 17-column table schema of src/lib.py:81-107, in declaration
order (which is also the positional order of the source columns that
`COPY ... (HEADER 1)` maps onto it). -/
def tableSchema : List ColumnSpec :=
  [ ⟨"vin", .varchar 10, true⟩,
    ⟨"county", .varchar 40, true⟩,
    ⟨"city", .varchar 40, true⟩,
    ⟨"state", .varchar 2, true⟩,
    ⟨"postal_code", .fixedchar 5, true⟩,
    ⟨"model_year", .integer, true⟩,
    ⟨"make", .varchar 30, true⟩,
    ⟨"model", .varchar 30, false⟩,
    ⟨"electric_vehicle_type", .enumType "ElectricVehicleType", true⟩,
    ⟨"cafv_eligibility", .enumType "CAFVEligibility", true⟩,
    ⟨"electric_range", .integer, true⟩,
    ⟨"base_msrp", .integer, true⟩,
    ⟨"legislative_district", .integer, false⟩,
    ⟨"dol_vehicle_id", .varchar 9, true⟩,
    ⟨"vehicle_location", .geometry, false⟩,
    ⟨"electric_utility", .varchar 200, false⟩,
    ⟨"census_tract_2000", .fixedchar 11, true⟩ ]

inductive DBError
  | sourceReadError
  | schemaConflict
  | loadError
deriving DecidableEq

/-- Association-list lookup used for the session's type and table
catalogues. -/
def lookupList {β : Type} : List (String × β) → String → Option β
  | [], _ => none
  | (k, v) :: rest, key => if k = key then some v else lookupList rest key

/-- Session state of the database collaborator: declared enum types
(name to value domain) and tables (name to loaded rows). -/
structure DBState where
  types : List (String × List String)
  tables : List (String × List (List (Option String)))
deriving DecidableEq

/-- Python `str.lower()` applied to the file stem (src/lib.py:80),
written over the character list. -/
def lowerString (s : String) : String := ⟨s.data.map Char.toLower⟩

/-- Whether a text cell is an integer literal accepted by the INTEGER
cast: an optional leading minus sign followed by one or more digits. -/
def isIntegerLiteral (s : String) : Bool :=
  match s.data with
  | [] => false
  | '-' :: rest => !rest.isEmpty && rest.all Char.isDigit
  | l => l.all Char.isDigit

/-- Whether a text cell can be cast to the declared scalar type.
VARCHAR/CHAR accept any text (the engine does not enforce the declared
length), INTEGER requires an integer literal, an enum type requires
membership in the declared value domain; the geometry parser is not
modelled and accepts any text. -/
def castOk (types : List (String × List String)) : ScalarType → String → Bool
  | .varchar _, _ => true
  | .fixedchar _, _ => true
  | .integer, s => isIntegerLiteral s
  | .enumType tn, s =>
      match lookupList types tn with
      | some vs => vs.contains s
      | none => false
  | .geometry, _ => true

/-- Whether a cell is admissible for a column: a null marker needs the
column nullable, a value needs a successful cast. -/
def fieldOk (types : List (String × List String)) (spec : ColumnSpec)
    (field : Option String) : Bool :=
  match field with
  | none => !spec.notNull
  | some s => castOk types spec.type s

/-- Whether a whole source row loads into the schema. -/
def rowOk (types : List (String × List String)) (specs : List ColumnSpec)
    (fields : List (Option String)) : Bool :=
  (fields.length == specs.length) &&
    (specs.zip fields).all (fun p => fieldOk types p.1 p.2)

/-- Execution of a `CREATE TYPE ... AS ENUM` command (src/lib.py:119-120):
scans the source column for its distinct non-null values and declares
the enum, failing on a name collision or a missing column. -/
def execCreateEnum (st : DBState) (cmd : EnumCommand) (csv : CSVFile) :
    DBState × Option DBError :=
  match columnDataValues csv cmd.columnName with
  | none => (st, some .sourceReadError)
  | some vals =>
      if (lookupList st.types cmd.enumName).isSome then (st, some .schemaConflict)
      else ({ st with types := (cmd.enumName, enumValues vals) :: st.types }, none)

/-- Execution of the `CREATE TABLE` command (src/lib.py:123): declares
an empty table, failing on a name collision. -/
def execCreateTable (st : DBState) (tableName : String) : DBState × Option DBError :=
  if (lookupList st.tables tableName).isSome then (st, some .schemaConflict)
  else ({ st with tables := (tableName, []) :: st.tables }, none)

/-- Modelled from the spec: the engine's bulk `COPY table FROM csv WITH
(HEADER 1, ...)` (src/lib.py:109-112, executed at line 126) is
all-or-nothing — DuckDB's COPY semantics are not repository code.  The
one header row is held separately in `CSVFile.header`, so exactly the
data rows are candidates.  If every data row is admissible the table
receives all of them; if any row fails a cast or an enum-domain check
the statement fails and the table keeps its prior (empty) contents. -/
def copyCSV (st : DBState) (tableName : String) (csv : CSVFile) :
    DBState × Option DBError :=
  match lookupList st.tables tableName with
  | none => (st, some .loadError)
  | some _ =>
      if csv.rows.all (fun r => rowOk st.types tableSchema r) then
        ({ st with
            tables := (tableName, csv.rows) ::
              st.tables.filter (fun p => !(p.1 == tableName)) }, none)
      else (st, some .loadError)

/-- Embedding of `create_table_from_csv(csv_file_dir, conn)`
(src/lib.py:58-132): build the two enum commands, derive the table name
from the lowercased file stem, then execute enum DDL, table DDL and the
bulk copy strictly in order; a failing statement raises, so later
statements are not reached and the session keeps the state it had at
the failure. -/
def create_table_from_csv (csv : CSVFile) (st : DBState) :
    DBState × Except DBError String :=
  let cmd1 := create_enum_from_column csv.path "Electric Vehicle Type" ""
  let cmd2 := create_enum_from_column csv.path
    "Clean Alternative Fuel Vehicle (CAFV) Eligibility" "CAFVEligibility"
  let tableName := lowerString csv.stem
  match execCreateEnum st cmd1 csv with
  | (st1, some e) => (st1, .error e)
  | (st1, none) =>
    match execCreateEnum st1 cmd2 csv with
    | (st2, some e) => (st2, .error e)
    | (st2, none) =>
      match execCreateTable st2 tableName with
      | (st3, some e) => (st3, .error e)
      | (st3, none) =>
        match copyCSV st3 tableName csv with
        | (st4, some e) => (st4, .error e)
        | (st4, none) => (st4, .ok tableName)

/-! ## Loaded-table row model and the four aggregation jobs
(src/lib.py:156-230)

The jobs read the loaded table; a row is modelled with the schema's
typed columns.  `model` is nullable (src/lib.py:94). -/

structure Row where
  vin : String
  county : String
  city : String
  state : String
  postal_code : String
  model_year : Int
  make : String
  model : Option String
  electric_vehicle_type : String
  cafv_eligibility : String
  electric_range : Int
  base_msrp : Int
  legislative_district : Option Int
  dol_vehicle_id : String
  vehicle_location : Option String
  electric_utility : Option String
  census_tract_2000 : String
deriving DecidableEq

/-- Insert into a list kept in descending `key` order (the `ORDER BY
... DESC` of src/lib.py:180-181 and 208; ties are engine-defined, the
model keeps the earlier element first). -/
def insertDesc {α : Type} (key : α → Nat) (x : α) : List α → List α
  | [] => [x]
  | y :: ys => if key y < key x then x :: y :: ys else y :: insertDesc key x ys

/-- `ORDER BY key DESC` as an insertion sort. -/
def sortByKeyDesc {α : Type} (key : α → Nat) : List α → List α
  | [] => []
  | x :: xs => insertDesc key x (sortByKeyDesc key xs)

/-- `SELECT k, COUNT(*) FROM t GROUP BY k`: one entry per distinct key
with the number of rows carrying that key (group order is
engine-defined; the model fixes one). -/
def groupCount {α κ : Type} [DecidableEq κ] (key : α → κ) (t : List α) :
    List (κ × Nat) :=
  ((t.map key).dedup).map (fun k => (k, (t.filter (fun r => key r = k)).length))

/-- Job 1 (src/lib.py:156-168): amount of vehicles in every city —
`SELECT city, COUNT(*) ... GROUP BY city`, no ordering. -/
def vehiclesPerCity (t : List Row) : List (String × Nat) :=
  groupCount (fun r => r.city) t

/-- Job 2 (src/lib.py:170-186): three most popular vehicles —
`SELECT make, model, COUNT(*) ... GROUP BY make, model ORDER BY
vehicle_amount DESC LIMIT 3`. -/
def threeMostPopularVehicles (t : List Row) :
    List ((String × Option String) × Nat) :=
  (sortByKeyDesc (fun e => e.2) (groupCount (fun r => (r.make, r.model)) t)).take 3

/-- Inner grouped subquery of job 3 (src/lib.py:198-205): counts per
(postal_code, make, model) triple. -/
def grouped3 (t : List Row) : List ((String × String × Option String) × Nat) :=
  groupCount (fun r => (r.postal_code, r.make, r.model)) t

/-- First element of maximal `key` in a list (`ROW_NUMBER() OVER
(... ORDER BY COUNT(*) DESC) = 1`; ties are engine-defined, the model
keeps the earliest group). -/
def argmaxKey {α : Type} (key : α → Nat) : List α → Option α
  | [] => none
  | x :: xs =>
      match argmaxKey key xs with
      | none => some x
      | some y => if key x < key y then some y else some x

/-- The rank-1 grouped entry of one `postal_code` partition in job 3. -/
def bestForPostal (t : List Row) (pc : String) :
    Option ((String × String × Option String) × Nat) :=
  argmaxKey (fun e => e.2) ((grouped3 t).filter (fun e => e.1.1 = pc))

/-- Job 3 (src/lib.py:188-212): most popular vehicle per postal code —
keep the `row_num = 1` entry of each `postal_code` partition, then
`ORDER BY vehicle_count DESC`. -/
def mostPopularVehiclePerPostalCode (t : List Row) :
    List ((String × String × Option String) × Nat) :=
  sortByKeyDesc (fun e => e.2)
    (((t.map (fun r => r.postal_code)).dedup).filterMap (fun pc => bestForPostal t pc))

/-- Job 4 (src/lib.py:214-230), inner query: amount of vehicles per
model year — `SELECT model_year, COUNT(*) ... GROUP BY model_year`. -/
def vehiclesPerModelYear (t : List Row) : List (Int × Nat) :=
  groupCount (fun r => r.model_year) t

/-- Hive-style sub-group name used by `PARTITION_BY(model_year)`
(src/lib.py:224-228): the partition column name and its value. -/
def partitionName (y : Int) : String := "model_year=" ++ toString y

/-- Partitioned export of job 4's result (src/lib.py:224-228): one
sub-group per distinct `model_year` value of the result set, named by
`partitionName`, holding the result rows carrying that value. -/
def perYearPartitions (t : List Row) : List (String × List (Int × Nat)) :=
  (((vehiclesPerModelYear t).map (fun e => e.1)).dedup).map
    (fun y => (partitionName y, (vehiclesPerModelYear t).filter (fun e => e.1 = y)))

/-! ## Control flow of `collect_information` (src/lib.py:135-235)

The function resolves the output directory (defaulting to
`output/<timestamp>`), creates it with `os.makedirs(..., exist_ok=True)`,
then issues the four `COPY (...) TO ...` export statements strictly in
sequence.  The statements have no surrounding try/except: an exception
raised by one `conn.execute` propagates out of the function and the
later statements are never reached.  The clock and the filesystem are
explicit parameters of the embedding. -/

inductive JobId
  | vehiclesPerCityJob
  | threeMostPopularJob
  | perPostalCodeJob
  | perYearJob
deriving DecidableEq

/-- The four export statements in source order (src/lib.py:157, 171,
189, 215). -/
def jobOrder : List JobId :=
  [.vehiclesPerCityJob, .threeMostPopularJob, .perPostalCodeJob, .perYearJob]

/-- Run statements in order against an engine `exec` that may raise:
returns the list of statements actually attempted and the first raised
error, if any.  A raised error stops execution (no try/except in
src/lib.py:135-235). -/
def runJobs (exec : JobId → Except String Unit) : List JobId →
    List JobId × Option String
  | [] => ([], none)
  | j :: rest =>
      match exec j with
      | .error e => ([j], some e)
      | .ok _ =>
          let res := runJobs exec rest
          (j :: res.1, res.2)

/-- Wall-clock reading, models `datetime.today()`. -/
structure Clock where
  year : Nat
  month : Nat
  day : Nat
  hour : Nat
  minute : Nat
  second : Nat
deriving DecidableEq

/-- Zero-pad to two digits (strftime `%m`, `%d`, `%H`, `%M`, `%S`). -/
def pad2 (n : Nat) : String :=
  if n < 10 then "0" ++ toString n else toString n

/-- Zero-pad to four digits (strftime `%Y`). -/
def pad4 (n : Nat) : String :=
  if n < 10 then "000" ++ toString n
  else if n < 100 then "00" ++ toString n
  else if n < 1000 then "0" ++ toString n
  else toString n

/-- `datetime.today().strftime("%Y-%m-%d_%H-%M-%S")` (src/lib.py:149). -/
def formatTimestamp (c : Clock) : String :=
  pad4 c.year ++ "-" ++ pad2 c.month ++ "-" ++ pad2 c.day ++ "_" ++
    pad2 c.hour ++ "-" ++ pad2 c.minute ++ "-" ++ pad2 c.second

/-- Python `os.makedirs(dir, exist_ok=exist_ok)` over a filesystem
modelled as the list of existing directories: creates the directory
when absent; when it already exists it errors only if `exist_ok` is
false. -/
def makedirs (fs : List String) (dir : String) (exist_ok : Bool) :
    List String × Option String :=
  if dir ∈ fs then
    if exist_ok then (fs, none) else (fs, some "FileExistsError")
  else (dir :: fs, none)

/-- Observable actions of `collect_information`, in order. -/
inductive Step
  | mkdirs (dir : String)
  | exportJob (job : JobId)
deriving DecidableEq

/-- Outcome of a `collect_information` call: resulting filesystem, the
resolved output directory, the ordered action trace, and the propagated
error, if any. -/
structure CollectResult where
  fs : List String
  outDir : String
  trace : List Step
  err : Option String
deriving DecidableEq

/-- Embedding of `collect_information(table_name, conn, output_dir)`
(src/lib.py:135-235): default the output directory to
`os.path.join("output", <timestamp>)` when the argument is empty,
`os.makedirs(output_dir, exist_ok=True)`, then the four export
statements in order with no error isolation. -/
def collect_information (output_dir : String) (now : Clock)
    (fs : List String) (exec : JobId → Except String Unit) : CollectResult :=
  let dir := if output_dir.length = 0
    then "output/" ++ formatTimestamp now
    else output_dir
  let fs2 := (makedirs fs dir true).1
  let res := runJobs exec jobOrder
  ⟨fs2, dir, Step.mkdirs dir :: res.1.map Step.exportJob, res.2⟩

/-! ## Concrete fixtures

A small source in the column layout expected by the schema, and the
concrete scenario table of the spec (5 Tesla Model3 rows and 2 Nissan
Leaf rows, all in Seattle / 98101). -/

def header17 : List String :=
  ["VIN (1-10)", "County", "City", "State", "Postal Code", "Model Year", "Make", "Model",
   "Electric Vehicle Type", "Clean Alternative Fuel Vehicle (CAFV) Eligibility",
   "Electric Range", "Base MSRP", "Legislative District", "DOL Vehicle ID",
   "Vehicle Location", "Electric Utility", "2020 Census Tract"]

def goodRowA : List (Option String) :=
  [some "5YJ3E1EA7K", some "King", some "Seattle", some "WA", some "98101", some "2020",
   some "Tesla", some "Model3", some "BEV", some "Eligible", some "215", some "0",
   some "43", some "123456789", some "POINT (1 2)", some "City of Seattle",
   some "53033000000"]

def goodRowB : List (Option String) :=
  [some "1N4AZ0CP5D", some "King", some "Seattle", some "WA", some "98101", some "2019",
   some "Nissan", some "Leaf", some "BEV", some "Eligible", some "75", some "0",
   some "43", some "123456788", some "POINT (1 2)", some "City of Seattle",
   some "53033000000"]

/-- A row whose `Model Year` cell is not an integer literal, so its cast
to the `model_year INTEGER` column fails. -/
def badRowA : List (Option String) :=
  [some "1N4AZ0CP5D", some "King", some "Seattle", some "WA", some "98101",
   some "notayear", some "Nissan", some "Leaf", some "BEV", some "Eligible", some "75",
   some "0", some "43", some "123456788", some "POINT (1 2)", some "City of Seattle",
   some "53033000000"]

def goodCSV : CSVFile := ⟨"data/Sample.csv", "Sample", header17, [goodRowA, goodRowB]⟩

def badCSV : CSVFile := ⟨"data/Sample.csv", "Sample", header17, [goodRowA, badRowA]⟩

def sampleRowA : Row :=
  ⟨"5YJ3E1EA7K", "King", "Seattle", "WA", "98101", 2020, "Tesla", some "Model3",
   "BEV", "Eligible", 215, 0, some 43, "123456789", some "POINT (1 2)",
   some "City of Seattle", "53033000000"⟩

def sampleRowB : Row :=
  ⟨"1N4AZ0CP5D", "King", "Seattle", "WA", "98101", 2019, "Nissan", some "Leaf",
   "BEV", "Eligible", 75, 0, some 43, "123456788", some "POINT (1 2)",
   some "City of Seattle", "53033000000"⟩

def sampleTable : List Row := List.replicate 5 sampleRowA ++ List.replicate 2 sampleRowB

def sampleClock : Clock := ⟨2026, 10, 12, 9, 30, 0⟩

/-- An engine on which the first export statement raises. -/
def execFailFirst : JobId → Except String Unit
  | .vehiclesPerCityJob => .error "QueryExecutionError"
  | _ => .ok ()

/-- An engine on which the third export statement raises. -/
def execFailPostal : JobId → Except String Unit
  | .perPostalCodeJob => .error "ExportWriteError"
  | _ => .ok ()

/-- Enum types as declared in session order by `create_table_from_csv`
on a fresh session, given the two scanned column value lists. -/
def declaredTypes (evVals cafvVals : List (Option String)) :
    List (String × List String) :=
  [("CAFVEligibility", enumValues cafvVals),
   (enumNameOf "Electric Vehicle Type" "", enumValues evVals)]

/-! ## Helper lemmas -/

theorem perm_insertDesc {α : Type} (key : α → Nat) (x : α) (l : List α) :
    (insertDesc key x l).Perm (x :: l) := by
  induction l with
  | nil => exact List.Perm.refl _
  | cons y ys ih =>
    by_cases h : key y < key x
    · simp [insertDesc, h]
    · simp only [insertDesc, if_neg h]
      exact (ih.cons y).trans (List.Perm.swap x y ys)

theorem pairwise_insertDesc {α : Type} (key : α → Nat) (x : α) (l : List α)
    (h : l.Pairwise (fun a b => key b ≤ key a)) :
    (insertDesc key x l).Pairwise (fun a b => key b ≤ key a) := by
  induction l with
  | nil => simp [insertDesc]
  | cons y ys ih =>
    rcases List.pairwise_cons.mp h with ⟨hy, hys⟩
    by_cases hk : key y < key x
    · simp only [insertDesc, if_pos hk]
      refine List.pairwise_cons.mpr ⟨?_, h⟩
      intro b hb
      rcases List.mem_cons.mp hb with rfl | hb
      · exact Nat.le_of_lt hk
      · exact Nat.le_trans (hy b hb) (Nat.le_of_lt hk)
    · simp only [insertDesc, if_neg hk]
      refine List.pairwise_cons.mpr ⟨?_, ih hys⟩
      intro b hb
      rcases List.mem_cons.mp ((perm_insertDesc key x ys).mem_iff.mp hb) with rfl | hb
      · exact Nat.le_of_not_lt hk
      · exact hy b hb

theorem perm_sortByKeyDesc {α : Type} (key : α → Nat) (l : List α) :
    (sortByKeyDesc key l).Perm l := by
  induction l with
  | nil => exact List.Perm.refl _
  | cons x xs ih => exact (perm_insertDesc key x _).trans (ih.cons x)

theorem pairwise_sortByKeyDesc {α : Type} (key : α → Nat) (l : List α) :
    (sortByKeyDesc key l).Pairwise (fun a b => key b ≤ key a) := by
  induction l with
  | nil => simp [sortByKeyDesc]
  | cons x xs ih => exact pairwise_insertDesc key x _ ih

theorem argmaxKey_eq_none {α : Type} (key : α → Nat) (l : List α) :
    argmaxKey key l = none ↔ l = [] := by
  cases l with
  | nil => simp [argmaxKey]
  | cons y ys =>
    simp only [argmaxKey]
    cases argmaxKey key ys with
    | none => simp
    | some z => by_cases hk : key y < key z <;> simp [hk]

theorem argmaxKey_mem {α : Type} (key : α → Nat) (l : List α) :
    ∀ x, argmaxKey key l = some x → x ∈ l := by
  induction l with
  | nil => intro x h; simp [argmaxKey] at h
  | cons y ys ih =>
    intro x h
    cases hz : argmaxKey key ys with
    | none => simp only [argmaxKey, hz] at h; cases h; exact List.mem_cons_self _ _
    | some z =>
      simp only [argmaxKey, hz] at h
      by_cases hk : key y < key z
      · rw [if_pos hk] at h; cases h; exact List.mem_cons_of_mem _ (ih _ hz)
      · rw [if_neg hk] at h; cases h; exact List.mem_cons_self _ _

theorem argmaxKey_le {α : Type} (key : α → Nat) (l : List α) :
    ∀ x, argmaxKey key l = some x → ∀ y ∈ l, key y ≤ key x := by
  induction l with
  | nil => intro x h; simp [argmaxKey] at h
  | cons a as ih =>
    intro x h y hy
    cases hz : argmaxKey key as with
    | none =>
      simp only [argmaxKey, hz] at h; cases h
      rcases (argmaxKey_eq_none key as).mp hz with rfl
      rcases List.mem_cons.mp hy with rfl | hy
      · exact Nat.le_refl _
      · cases hy
    | some z =>
      simp only [argmaxKey, hz] at h
      by_cases hk : key a < key z
      · rw [if_pos hk] at h; cases h
        rcases List.mem_cons.mp hy with rfl | hy
        · exact Nat.le_of_lt hk
        · exact ih _ hz y hy
      · rw [if_neg hk] at h; cases h
        rcases List.mem_cons.mp hy with rfl | hy
        · exact Nat.le_refl _
        · exact Nat.le_trans (ih _ hz y hy) (Nat.le_of_not_lt hk)

theorem groupCount_fst {α κ : Type} [DecidableEq κ] (key : α → κ) (t : List α) :
    (groupCount key t).map (fun e => e.1) = (t.map key).dedup := by
  rw [groupCount, List.map_map]
  exact List.map_id _

theorem length_filter_eq_count {α κ : Type} [DecidableEq κ] (key : α → κ)
    (t : List α) (k : κ) :
    (t.filter (fun r => key r = k)).length = (t.map key).count k := by
  rw [← List.countP_eq_length_filter, List.count_eq_countP, List.countP_map]
  rfl

theorem groupCount_sum {α κ : Type} [DecidableEq κ] (key : α → κ) (t : List α) :
    ((groupCount key t).map (fun e => e.2)).sum = t.length := by
  rw [groupCount, List.map_map]
  have h : ((fun e : κ × Nat => e.2) ∘
        fun k => (k, (t.filter (fun r => key r = k)).length)) =
      fun k => (t.map key).count k :=
    funext fun k => length_filter_eq_count key t k
  rw [h, List.sum_map_count_dedup_eq_length, List.length_map]

theorem mem_groupCount {α κ : Type} [DecidableEq κ] (key : α → κ) (t : List α)
    (e : κ × Nat) (h : e ∈ groupCount key t) :
    e.2 = (t.filter (fun r => key r = e.1)).length ∧ e.1 ∈ t.map key := by
  rcases List.mem_map.mp h with ⟨k, hk, rfl⟩
  exact ⟨rfl, List.mem_dedup.mp hk⟩

theorem groupCount_mem_of_mem_key {α κ : Type} [DecidableEq κ] (key : α → κ)
    (t : List α) (k : κ) (h : k ∈ t.map key) :
    (k, (t.filter (fun r => key r = k)).length) ∈ groupCount key t :=
  List.mem_map.mpr ⟨k, List.mem_dedup.mpr h, rfl⟩

theorem map_filterMap_eq_self {α β : Type} (l : List α) (f : α → Option β)
    (g : β → α) (h : ∀ a ∈ l, ∃ b, f a = some b ∧ g b = a) :
    (l.filterMap f).map g = l := by
  induction l with
  | nil => rfl
  | cons a as ih =>
    rcases h a (List.mem_cons_self a as) with ⟨b, hb, hg⟩
    rw [List.filterMap_cons_some hb, List.map_cons, hg,
      ih (fun x hx => h x (List.mem_cons_of_mem _ hx))]

theorem filter_fst_eq_of_nodup {κ : Type} [DecidableEq κ] :
    ∀ (l : List (κ × Nat)) (y : κ) (val : Nat),
      (l.map Prod.fst).Nodup → (y, val) ∈ l →
      l.filter (fun e => e.1 = y) = [(y, val)] := by
  intro l
  induction l with
  | nil => intro y val _ hmem; cases hmem
  | cons p rest ih =>
    intro y val hnd hmem
    rw [List.map_cons, List.nodup_cons] at hnd
    obtain ⟨hp, hrest⟩ := hnd
    rcases List.mem_cons.mp hmem with heq | hmem'
    · cases heq
      have hrestnil : rest.filter (fun e => e.1 = y) = [] := by
        rw [List.filter_eq_nil_iff]
        intro e he hey
        have h1 : e.1 = y := by simpa using hey
        have h2 : e.1 ∈ rest.map Prod.fst := List.mem_map_of_mem Prod.fst he
        rw [h1] at h2
        exact hp h2
      simp [List.filter_cons, hrestnil]
    · have hy : y ∈ rest.map Prod.fst := by
        have := List.mem_map_of_mem Prod.fst hmem'
        simpa using this
      have hne : ¬(decide (p.1 = y) = true) := by
        simp only [decide_eq_true_eq]
        intro h
        exact hp (h ▸ hy)
      rw [List.filter_cons, if_neg hne]
      exact ih y val hrest hmem'

theorem runJobs_ok_front (exec : JobId → Except String Unit)
    (pre rest : List JobId) (hpre : ∀ k ∈ pre, exec k = Except.ok ()) :
    runJobs exec (pre ++ rest) =
      (pre ++ (runJobs exec rest).1, (runJobs exec rest).2) := by
  induction pre with
  | nil => simp
  | cons k ks ih =>
    have hk := hpre k (List.mem_cons_self k ks)
    simp only [List.cons_append, runJobs, hk, List.append_eq]
    rw [ih (fun a ha => hpre a (List.mem_cons_of_mem _ ha))]

theorem removeChar_eq_filter (c : Char) (l : List Char) :
    removeChar c l = l.filter (fun a => !(a == c)) := by
  induction l with
  | nil => rfl
  | cons a as ih =>
    by_cases h : a = c
    · simp [removeChar, h, ih]
    · simp [removeChar, h, ih]

theorem mem_makedirs (fs : List String) (dir : String) :
    dir ∈ (makedirs fs dir true).1 := by
  rw [makedirs]
  split
  · next h => simpa using h
  · exact List.mem_cons_self _ _

theorem makedirs_exist_ok_no_error (fs : List String) (dir : String) :
    (makedirs fs dir true).2 = none := by
  rw [makedirs]
  split <;> rfl

theorem execCreateEnum_of_some (st : DBState) (cmd : EnumCommand) (csv : CSVFile)
    (vals : List (Option String)) (h : columnDataValues csv cmd.columnName = some vals)
    (hfresh : lookupList st.types cmd.enumName = none) :
    execCreateEnum st cmd csv =
      ({ st with types := (cmd.enumName, enumValues vals) :: st.types }, none) := by
  simp [execCreateEnum, h, hfresh]

theorem bestForPostal_spec (t : List Row) (pc : String)
    (h : pc ∈ t.map (fun r => r.postal_code)) :
    ∃ e, bestForPostal t pc = some e ∧ e.1.1 = pc := by
  rcases List.mem_map.mp h with ⟨r, hr, rfl⟩
  have hk : (r.postal_code, r.make, r.model) ∈
      t.map (fun x => (x.postal_code, x.make, x.model)) :=
    List.mem_map.mpr ⟨r, hr, rfl⟩
  have hg := groupCount_mem_of_mem_key (fun x => (x.postal_code, x.make, x.model)) t _ hk
  have hf : ((r.postal_code, r.make, r.model),
        (t.filter (fun x =>
          (x.postal_code, x.make, x.model) = (r.postal_code, r.make, r.model))).length) ∈
      (grouped3 t).filter (fun e => e.1.1 = r.postal_code) :=
    List.mem_filter.mpr ⟨hg, by simp⟩
  cases he : bestForPostal t r.postal_code with
  | none =>
      simp only [bestForPostal] at he
      rw [(argmaxKey_eq_none _ _).mp he] at hf
      cases hf
  | some e =>
      refine ⟨e, rfl, ?_⟩
      simp only [bestForPostal] at he
      have hmem := argmaxKey_mem _ _ _ he
      simpa using (List.mem_filter.mp hmem).2

theorem bestForPostal_eq_count (t : List Row) (pc : String)
    (e : (String × String × Option String) × Nat) (h : bestForPostal t pc = some e) :
    e.1.1 = pc ∧
      e.2 = (t.filter (fun x => (x.postal_code, x.make, x.model) = e.1)).length := by
  simp only [bestForPostal] at h
  have hmem := argmaxKey_mem _ _ _ h
  rcases List.mem_filter.mp hmem with ⟨hg, hpc⟩
  exact ⟨by simpa using hpc, (mem_groupCount _ _ _ hg).1⟩

theorem bestForPostal_max (t : List Row) (pc : String)
    (e : (String × String × Option String) × Nat) (h : bestForPostal t pc = some e)
    (mk : String) (md : Option String) :
    (t.filter (fun x => (x.postal_code, x.make, x.model) = (pc, mk, md))).length ≤ e.2 := by
  simp only [bestForPostal] at h
  by_cases hkey : (pc, mk, md) ∈ t.map (fun x => (x.postal_code, x.make, x.model))
  · have hg := groupCount_mem_of_mem_key (fun x => (x.postal_code, x.make, x.model)) t _ hkey
    have hf : ((pc, mk, md),
          (t.filter (fun x => (x.postal_code, x.make, x.model) = (pc, mk, md))).length) ∈
        (grouped3 t).filter (fun e => e.1.1 = pc) :=
      List.mem_filter.mpr ⟨hg, by simp⟩
    simpa using argmaxKey_le _ _ _ h _ hf
  · have hnil : t.filter (fun x => (x.postal_code, x.make, x.model) = (pc, mk, md)) = [] := by
      rw [List.filter_eq_nil_iff]
      intro x hx hbx
      have heq : (x.postal_code, x.make, x.model) = (pc, mk, md) := by simpa using hbx
      have hmm : (x.postal_code, x.make, x.model) ∈
          t.map (fun x => (x.postal_code, x.make, x.model)) := List.mem_map_of_mem _ hx
      rw [heq] at hmm
      exact hkey hmm
    rw [hnil]
    exact Nat.zero_le _

/-! ## Claim theorems -/

/-- Claim C5: for every source and column present in its header, the
Dictionary produced for `create_enum_from_column` holds exactly the
distinct non-null values of that column — membership coincides with
occurrence as a non-null cell, there are no duplicates, and the order is
a fixed deterministic function of the source order (a sublist of the
non-null cells in source order). -/
theorem claim5_dictionary_values (csv : CSVFile) (dir col en : String)
    (vals : List (Option String)) (hcol : columnDataValues csv col = some vals) :
    dictionaryValues csv (create_enum_from_column dir col en) = some (enumValues vals) ∧
    (∀ v, v ∈ enumValues vals ↔ some v ∈ vals) ∧
    (enumValues vals).Nodup ∧
    (enumValues vals).Sublist vals.reduceOption := by
  refine ⟨by simp [dictionaryValues, create_enum_from_column, hcol], ?_,
    List.nodup_dedup _, List.dedup_sublist _⟩
  intro v
  rw [enumValues, List.mem_dedup, List.reduceOption_mem_iff]

/-- Witness for C5 on the concrete sample source. -/
theorem claim5_witness :
    dictionaryValues goodCSV
        (create_enum_from_column "data/Sample.csv" "Electric Vehicle Type" "") =
      some (enumValues [some "BEV", some "BEV"]) ∧
    ("BEV" ∈ enumValues [some "BEV", some "BEV"] ↔
      some "BEV" ∈ [some "BEV", some "BEV"]) ∧
    (enumValues [some "BEV", some "BEV"]).Nodup ∧
    (enumValues [some "BEV", some "BEV"]).Sublist
      ([some "BEV", some "BEV"] : List (Option String)).reduceOption := by
  have h := claim5_dictionary_values goodCSV "data/Sample.csv" "Electric Vehicle Type" ""
    [some "BEV", some "BEV"] (by rfl)
  exact ⟨h.1, h.2.1 "BEV", h.2.2.1, h.2.2.2⟩

/-- Claim C8: job 1 outputs one row per distinct city, and the counts
across all output rows sum to the total number of table rows. -/
theorem claim8_city_counts_partition (t : List Row) :
    (vehiclesPerCity t).map (fun e => e.1) = (t.map (fun r => r.city)).dedup ∧
    ((vehiclesPerCity t).map (fun e => e.2)).sum = t.length :=
  ⟨groupCount_fst _ _, groupCount_sum _ _⟩

/-- Claim C9: with an empty enum name, `create_enum_from_column` derives
the type name from the column name by deleting every space, opening and
closing parenthesis, leaving all other characters unchanged; a non-empty
enum name is used as given. -/
theorem claim9_enum_name_derivation (col en : String) :
    (en.length = 0 →
      (enumNameOf col en).data =
        col.data.filter (fun c => !(c == ' ' || c == '(' || c == ')'))) ∧
    (en.length ≠ 0 → enumNameOf col en = en) := by
  constructor
  · intro h
    rw [enumNameOf, if_pos h]
    rw [removeChar_eq_filter, removeChar_eq_filter, removeChar_eq_filter,
      List.filter_filter, List.filter_filter]
    exact List.filter_congr (by
      intro a _
      cases h1 : a == ' ' <;> cases h2 : a == '(' <;> cases h3 : a == ')' <;>
        simp [h1, h2, h3])
  · intro h
    rw [enumNameOf, if_neg h]

/-- Witness for C9 at the two enum columns of the schema. -/
theorem claim9_witness :
    (enumNameOf "Electric Vehicle Type" "").data =
      ("Electric Vehicle Type" : String).data.filter
        (fun c => !(c == ' ' || c == '(' || c == ')')) ∧
    enumNameOf "Clean Alternative Fuel Vehicle (CAFV) Eligibility" "CAFVEligibility" =
      "CAFVEligibility" :=
  ⟨(claim9_enum_name_derivation "Electric Vehicle Type" "").1 rfl,
   (claim9_enum_name_derivation "Clean Alternative Fuel Vehicle (CAFV) Eligibility"
      "CAFVEligibility").2 (by decide)⟩

/-- Claim C10: with an empty `output_dir`, `collect_information` targets
`output/<timestamp %Y-%m-%d_%H-%M-%S>`, otherwise the caller-supplied
path; it creates the destination directory (which then exists), the
creation never fails even when the directory already exists
(`exist_ok=True`), and it happens before any export step. -/
theorem claim10_output_dir (output_dir : String) (now : Clock) (fs : List String)
    (exec : JobId → Except String Unit) :
    (collect_information output_dir now fs exec).outDir =
      (if output_dir.length = 0 then "output/" ++ formatTimestamp now
       else output_dir) ∧
    (collect_information output_dir now fs exec).outDir ∈
      (collect_information output_dir now fs exec).fs ∧
    (makedirs fs (collect_information output_dir now fs exec).outDir true).2 = none ∧
    (collect_information output_dir now fs exec).trace.head? =
      some (Step.mkdirs (collect_information output_dir now fs exec).outDir) := by
  refine ⟨rfl, ?_, ?_, rfl⟩
  · exact mem_makedirs fs _
  · exact makedirs_exist_ok_no_error fs _

/-- Claim C6: job 2 outputs exactly 3 rows — or fewer when the table
has fewer than 3 distinct (make, model) pairs —, each row carries the
row count of its (make, model) group, and the counts are
non-increasing. -/
theorem claim6_top3_models (t : List Row) :
    (threeMostPopularVehicles t).length =
      min 3 ((t.map (fun r => (r.make, r.model))).dedup).length ∧
    (∀ e, e ∈ threeMostPopularVehicles t →
      e.2 = (t.filter (fun r => (r.make, r.model) = e.1)).length) ∧
    (threeMostPopularVehicles t).Pairwise (fun a b => b.2 ≤ a.2) := by
  refine ⟨?_, ?_, ?_⟩
  · rw [threeMostPopularVehicles, List.length_take, (perm_sortByKeyDesc _ _).length_eq,
      groupCount, List.length_map]
  · intro e he
    have he2 : e ∈ sortByKeyDesc (fun e => e.2)
        (groupCount (fun r => (r.make, r.model)) t) := List.take_subset _ _ he
    have he3 : e ∈ groupCount (fun r => (r.make, r.model)) t :=
      (perm_sortByKeyDesc _ _).mem_iff.mp he2
    exact (mem_groupCount _ _ _ he3).1
  · exact List.Pairwise.sublist (List.take_sublist _ _) (pairwise_sortByKeyDesc _ _)

/-- Witness for C6 on the concrete scenario table: the Nissan Leaf row
of the output carries its group's row count. -/
theorem claim6_witness :
    ((("Nissan", some "Leaf"), 2) : (String × Option String) × Nat).2 =
      (sampleTable.filter
        (fun r => (r.make, r.model) = (("Nissan", some "Leaf") : String × Option String))).length :=
  (claim6_top3_models sampleTable).2.1 (("Nissan", some "Leaf"), 2) (by decide)

/-- Claim C7: the export of job 4 yields exactly one partition sub-group
per distinct `model_year` of the table, each named `model_year=<Y>` from
its partition value, and each sub-group holds a single row whose count
is the number of table rows with that `model_year`. -/
theorem claim7_per_year_partitions (t : List Row) :
    (perYearPartitions t).length = ((t.map (fun r => r.model_year)).dedup).length ∧
    (∀ y, y ∈ (t.map (fun r => r.model_year)).dedup →
      (partitionName y, [(y, (t.filter (fun r => r.model_year = y)).length)]) ∈
        perYearPartitions t) ∧
    (∀ p, p ∈ perYearPartitions t → ∃ y, y ∈ (t.map (fun r => r.model_year)).dedup ∧
      p = (partitionName y, [(y, (t.filter (fun r => r.model_year = y)).length)])) := by
  have hfst : (vehiclesPerModelYear t).map (fun e => e.1) =
      (t.map (fun r => r.model_year)).dedup := groupCount_fst _ _
  have hkeys : ((vehiclesPerModelYear t).map (fun e => e.1)).dedup =
      (t.map (fun r => r.model_year)).dedup := by
    rw [hfst]
    exact List.dedup_eq_self.mpr (List.nodup_dedup _)
  have hnd : ((vehiclesPerModelYear t).map Prod.fst).Nodup := by
    have : (vehiclesPerModelYear t).map Prod.fst =
        (vehiclesPerModelYear t).map (fun e => e.1) := rfl
    rw [this, hfst]
    exact List.nodup_dedup _
  have hfilter : ∀ y, y ∈ (t.map (fun r => r.model_year)).dedup →
      (vehiclesPerModelYear t).filter (fun e => e.1 = y) =
        [(y, (t.filter (fun r => r.model_year = y)).length)] := by
    intro y hy
    exact filter_fst_eq_of_nodup _ y _ hnd
      (groupCount_mem_of_mem_key _ t y (List.mem_dedup.mp hy))
  refine ⟨?_, ?_, ?_⟩
  · rw [perYearPartitions, List.length_map, hkeys]
  · intro y hy
    rw [perYearPartitions, hkeys]
    exact List.mem_map.mpr ⟨y, hy, by rw [hfilter y hy]⟩
  · intro p hp
    rw [perYearPartitions, hkeys] at hp
    rcases List.mem_map.mp hp with ⟨y, hy, rfl⟩
    exact ⟨y, hy, by rw [hfilter y hy]⟩

/-- Witness for C7 on the concrete scenario table: the 2020 partition
holds exactly one row counting the five 2020 rows. -/
theorem claim7_witness :
    (partitionName 2020,
      [((2020 : Int), (sampleTable.filter (fun r => r.model_year = (2020 : Int))).length)]) ∈
      perYearPartitions sampleTable :=
  (claim7_per_year_partitions sampleTable).2.1 2020 (by decide)

/-- Claim C2: job 3 emits exactly one row per distinct postal code of
the table (its postal-code column is a permutation of the distinct
postal codes); each emitted row's count is the row count of its own
(postal_code, make, model) group and is at least the count of every
other (make, model) pair within the same postal code; and the output is
ordered by count descending across all postal codes. -/
theorem claim2_top_model_per_postal_code (t : List Row) :
    ((mostPopularVehiclePerPostalCode t).map (fun e => e.1.1)).Perm
      ((t.map (fun r => r.postal_code)).dedup) ∧
    (∀ e, e ∈ mostPopularVehiclePerPostalCode t →
      e.2 = (t.filter (fun x => (x.postal_code, x.make, x.model) = e.1)).length ∧
      ∀ mk md, (t.filter
        (fun x => (x.postal_code, x.make, x.model) = (e.1.1, mk, md))).length ≤ e.2) ∧
    (mostPopularVehiclePerPostalCode t).Pairwise (fun a b => b.2 ≤ a.2) := by
  have hinner : (((t.map (fun r => r.postal_code)).dedup).filterMap
        (fun pc => bestForPostal t pc)).map (fun e => e.1.1) =
      (t.map (fun r => r.postal_code)).dedup := by
    apply map_filterMap_eq_self
    intro pc hpc
    rcases bestForPostal_spec t pc (List.mem_dedup.mp hpc) with ⟨e, he, hpc1⟩
    exact ⟨e, he, hpc1⟩
  refine ⟨?_, ?_, ?_⟩
  · have h1 : ((mostPopularVehiclePerPostalCode t).map (fun e => e.1.1)).Perm
        ((((t.map (fun r => r.postal_code)).dedup).filterMap
          (fun pc => bestForPostal t pc)).map (fun e => e.1.1)) :=
      (perm_sortByKeyDesc _ _).map _
    rw [hinner] at h1
    exact h1
  · intro e he
    have he2 : e ∈ ((t.map (fun r => r.postal_code)).dedup).filterMap
        (fun pc => bestForPostal t pc) := (perm_sortByKeyDesc _ _).mem_iff.mp he
    rcases List.mem_filterMap.mp he2 with ⟨pc, _, hbest⟩
    rcases bestForPostal_eq_count t pc e hbest with ⟨hpc1, hcount⟩
    refine ⟨hcount, ?_⟩
    intro mk md
    rw [hpc1]
    exact bestForPostal_max t pc e hbest mk md
  · exact pairwise_sortByKeyDesc _ _

/-- Witness for C2 on the concrete scenario table: the winning Tesla
Model3 row for 98101 dominates the Nissan Leaf pair of the same postal
code. -/
theorem claim2_witness :
    (sampleTable.filter (fun x => (x.postal_code, x.make, x.model) =
      (("98101", "Nissan", some "Leaf") : String × String × Option String))).length ≤ 5 :=
  ((claim2_top_model_per_postal_code sampleTable).2.1
    (("98101", "Tesla", some "Model3"), 5) (by decide)).2 "Nissan" (some "Leaf")

/-- Counterexample to claim C1: on an engine whose first export
statement raises, `collect_information` propagates the error and the
three remaining export jobs are never attempted — they are absent from
the action trace, contradicting "for every failing job, every other
job's export is still executed". -/
theorem claim1_counterexample :
    (collect_information "out" sampleClock [] execFailFirst).err =
      some "QueryExecutionError" ∧
    Step.exportJob JobId.threeMostPopularJob ∉
      (collect_information "out" sampleClock [] execFailFirst).trace ∧
    Step.exportJob JobId.perPostalCodeJob ∉
      (collect_information "out" sampleClock [] execFailFirst).trace ∧
    Step.exportJob JobId.perYearJob ∉
      (collect_information "out" sampleClock [] execFailFirst).trace := by
  refine ⟨rfl, ?_, ?_, ?_⟩ <;> decide

/-- Claim C1 as amended: the four jobs are not isolated — when an export
statement raises, `collect_information` stops there and propagates that
single error; the jobs before the failing one are the only ones
attempted and no multi-error collection happens. -/
theorem claim1_amended_fail_fast (output_dir : String) (now : Clock)
    (fs : List String) (exec : JobId → Except String Unit)
    (pre post : List JobId) (j : JobId) (e : String)
    (horder : jobOrder = pre ++ j :: post)
    (hpre : ∀ k ∈ pre, exec k = Except.ok ())
    (hj : exec j = Except.error e) :
    (collect_information output_dir now fs exec).err = some e ∧
    (collect_information output_dir now fs exec).trace =
      Step.mkdirs (collect_information output_dir now fs exec).outDir ::
        (pre ++ [j]).map Step.exportJob := by
  have hrun : runJobs exec jobOrder = (pre ++ [j], some e) := by
    rw [horder, runJobs_ok_front exec pre (j :: post) hpre]
    simp only [runJobs, hj]
  constructor
  · show (runJobs exec jobOrder).2 = some e
    rw [hrun]
  · show Step.mkdirs _ :: (runJobs exec jobOrder).1.map Step.exportJob = _
    rw [hrun]
    rfl

/-- Witness for the amended C1: the engine raising on the third export
statement yields that error and a trace stopping right after it. -/
theorem claim1_amended_witness :
    (collect_information "out" sampleClock [] execFailPostal).err =
      some "ExportWriteError" ∧
    (collect_information "out" sampleClock [] execFailPostal).trace =
      Step.mkdirs (collect_information "out" sampleClock [] execFailPostal).outDir ::
        ([JobId.vehiclesPerCityJob, JobId.threeMostPopularJob] ++
          [JobId.perPostalCodeJob]).map Step.exportJob :=
  claim1_amended_fail_fast "out" sampleClock [] execFailPostal
    [JobId.vehiclesPerCityJob, JobId.threeMostPopularJob] [JobId.perYearJob]
    JobId.perPostalCodeJob "ExportWriteError" rfl
    (by intro k hk; fin_cases hk <;> rfl) rfl

/-- Claim C3: on a fresh session, when the source has at least one row
that does not load — an enum-column value outside its Dictionary, a
value that cannot be cast to its column type, or a null in a NOT NULL
column — the whole `create_table_from_csv` run fails with the load
error and the table is left existing but empty: no partially populated
table remains. -/
theorem claim3_all_or_nothing (csv : CSVFile)
    (evVals cafvVals : List (Option String))
    (h1 : columnDataValues csv "Electric Vehicle Type" = some evVals)
    (h2 : columnDataValues csv "Clean Alternative Fuel Vehicle (CAFV) Eligibility" =
      some cafvVals)
    (hbad : ∃ r ∈ csv.rows,
      rowOk (declaredTypes evVals cafvVals) tableSchema r = false) :
    (create_table_from_csv csv ⟨[], []⟩).2 = Except.error DBError.loadError ∧
    lookupList (create_table_from_csv csv ⟨[], []⟩).1.tables (lowerString csv.stem) =
      some [] := by
  have e1 : execCreateEnum ⟨[], []⟩
      (create_enum_from_column csv.path "Electric Vehicle Type" "") csv =
      (⟨[(enumNameOf "Electric Vehicle Type" "", enumValues evVals)], []⟩, none) :=
    execCreateEnum_of_some _ _ _ _ h1 rfl
  have e2 : execCreateEnum
      ⟨[(enumNameOf "Electric Vehicle Type" "", enumValues evVals)], []⟩
      (create_enum_from_column csv.path
        "Clean Alternative Fuel Vehicle (CAFV) Eligibility" "CAFVEligibility") csv =
      (⟨declaredTypes evVals cafvVals, []⟩, none) :=
    execCreateEnum_of_some _ _ _ _ h2 rfl
  have e3 : execCreateTable ⟨declaredTypes evVals cafvVals, []⟩ (lowerString csv.stem) =
      (⟨declaredTypes evVals cafvVals, [(lowerString csv.stem, [])]⟩, none) := by
    simp [execCreateTable, lookupList]
  have hall : csv.rows.all
      (fun r => rowOk (declaredTypes evVals cafvVals) tableSchema r) = false := by
    rw [List.all_eq_false]
    rcases hbad with ⟨r, hr, hrow⟩
    exact ⟨r, hr, by simp [hrow]⟩
  have e4 : copyCSV ⟨declaredTypes evVals cafvVals, [(lowerString csv.stem, [])]⟩
      (lowerString csv.stem) csv =
      (⟨declaredTypes evVals cafvVals, [(lowerString csv.stem, [])]⟩,
        some DBError.loadError) := by
    simp [copyCSV, lookupList, hall]
  have hrun : create_table_from_csv csv ⟨[], []⟩ =
      (⟨declaredTypes evVals cafvVals, [(lowerString csv.stem, [])]⟩,
        Except.error DBError.loadError) := by
    simp only [create_table_from_csv, e1, e2, e3, e4]
  rw [hrun]
  exact ⟨rfl, by simp [lookupList]⟩

/-- Witness for C3: the sample source with a second row whose
`Model Year` cell cannot be cast to INTEGER makes the whole load fail
and leaves table `sample` existing but empty. -/
theorem claim3_witness :
    (create_table_from_csv badCSV ⟨[], []⟩).2 = Except.error DBError.loadError ∧
    lookupList (create_table_from_csv badCSV ⟨[], []⟩).1.tables
      (lowerString badCSV.stem) = some [] :=
  claim3_all_or_nothing badCSV [some "BEV", some "BEV"]
    [some "Eligible", some "Eligible"] rfl rfl ⟨badRowA, by decide, by decide⟩

/-- Claim C4: whenever `create_table_from_csv` succeeds on a fresh
session, the returned table holds exactly the data rows of the source —
its row count equals the source's data row count, with the single
header row held apart and not loaded. -/
theorem claim4_row_count_preserved (csv : CSVFile) (st' : DBState) (tn : String)
    (h : create_table_from_csv csv ⟨[], []⟩ = (st', Except.ok tn)) :
    ∃ loaded, lookupList st'.tables tn = some loaded ∧
      loaded.length = csv.rows.length := by
  simp only [create_table_from_csv] at h
  split at h
  · simp at h
  · split at h
    · simp at h
    · split at h
      · simp at h
      · split at h
        · simp at h
        · next st3 tname st4 heq4 =>
            rw [Prod.mk.injEq] at h
            obtain ⟨rfl, htn⟩ := h
            simp only [Except.ok.injEq] at htn
            subst htn
            simp only [copyCSV] at heq4
            split at heq4
            · simp at heq4
            · split at heq4
              · rw [Prod.mk.injEq] at heq4
                obtain ⟨rfl, -⟩ := heq4
                refine ⟨csv.rows, ?_, rfl⟩
                simp [lookupList]
              · simp at heq4

/-- Witness for C4: the two-data-row sample source loads into table
`sample` with exactly two rows. -/
theorem claim4_witness :
    ∃ loaded,
      lookupList (create_table_from_csv goodCSV ⟨[], []⟩).1.tables "sample" =
        some loaded ∧ loaded.length = goodCSV.rows.length :=
  claim4_row_count_preserved goodCSV (create_table_from_csv goodCSV ⟨[], []⟩).1
    "sample" (by rfl)

end EVPipeline
